import Mathlib

/-!
Verification of the alert decision engine of `runpod-alerts-tg-bot`.

The definitions below are a shallow embedding of the Python sources:
`src/runpod_alerts_tg_bot/alerts_service.py` (the `AlertsService` class:
`_load_state`, `_format_hours_left`, `poll_and_alert`) and
`src/runpod_alerts_tg_bot/config.py` (`AppConfig`).

Modelling conventions:
* Python floats are modelled as `ℚ`; `math.inf` (returned by
  `_format_hours_left` when `spend_per_hr <= 0`) is modelled by `Option ℚ`
  with `none` standing for `+∞`.
* Python ints are `ℤ`.
* A notification send that may raise is modelled by a `send_ok : Bool`
  parameter; the engine's outgoing message is recorded in the result as an
  `attempt` carrying exactly the data the chosen template renders.
* Wall-clock time is a single `now_ts : ℚ` parameter (the source calls
  `_now_ts()` twice per send, microseconds apart; one timestamp models both).
* The persisted JSON state file is modelled by a small JSON value type; the
  Python string-to-number conversions `float(...)` / `int(...)` are modelled
  for numeric literals with an optional sign and decimal point (exotic
  accepted spellings such as exponents or surrounding whitespace are treated
  as conversion failures).
-/

namespace RunpodAlerts

/-- Configuration fields read by `AlertsService`
(`alerts_service.py` accesses each of these as `self._cfg.<field>`).
Note: `pod_stop_balance_usd` is read by the engine (and supplied to
`AppConfig(...)` throughout `simulate.py`) but is *not* among the fields
declared by `AppConfig` in `config.py`; see `appConfigFieldNames` and
`alertsServiceConfigReads` below. -/
structure AppConfig where
  low_balance_usd : ℚ
  pod_stop_balance_usd : ℚ
  alert_initial_interval_minutes : ℚ
  alert_decay_factor : ℚ
  alert_minimum_interval_minutes : ℚ
  alert_hysteresis_usd : ℚ
  deriving Repr, DecidableEq

/-- The field names `AppConfig` in `config.py` actually declares. -/
def appConfigFieldNames : List String :=
  ["runpod_api_key", "telegram_bot_token", "telegram_chat_id",
   "daily_notify_time", "daily_notify_tz", "low_balance_usd",
   "alert_initial_interval_minutes", "alert_decay_factor",
   "alert_minimum_interval_minutes", "alert_hysteresis_usd",
   "poll_interval_sec", "log_level"]

/-- The `self._cfg.<attr>` attribute reads appearing in `alerts_service.py`. -/
def alertsServiceConfigReads : List String :=
  ["runpod_api_key", "pod_stop_balance_usd", "low_balance_usd",
   "alert_hysteresis_usd", "alert_minimum_interval_minutes",
   "alert_decay_factor", "alert_initial_interval_minutes",
   "poll_interval_sec"]

/-- `AlertState` dataclass of `alerts_service.py`. -/
structure AlertState where
  last_alert_at : Option ℚ
  current_interval_min : ℚ
  alert_count : ℤ
  deriving Repr, DecidableEq

/-- `BalanceInfo` dataclass of `runpod_client.py`. -/
structure BalanceInfo where
  client_balance : ℚ
  current_spend_per_hr : ℚ
  deriving Repr, DecidableEq

/-- `AlertsService._format_hours_left`: `math.inf` (modelled as `none`) when
`spend_per_hr <= 0`, otherwise `(balance - pod_stop_balance_usd) / spend_per_hr`. -/
def format_hours_left (cfg : AppConfig) (balance spend_per_hr : ℚ) : Option ℚ :=
  if spend_per_hr ≤ 0 then none
  else some ((balance - cfg.pod_stop_balance_usd) / spend_per_hr)

/-- The template a poll decision selects. -/
inductive MsgKind where
  | lowBalance
  | depleted
  | recovered
  deriving Repr, DecidableEq

/-- An outgoing message attempt, carrying the data interpolated into the
selected template (`LOW_BALANCE_ALERT_TEMPLATE`, `BALANCE_DEPLETED_TEMPLATE`
or `BALANCE_RECOVERED_TEMPLATE`). The depleted and recovered templates render
neither the spend rate nor an ETA. -/
inductive NotifRequest where
  | lowBalance (balance threshold spend pod_stop_balance hoursLeft : ℚ)
  | depleted (balance threshold pod_stop_balance : ℚ)
  | recovered (balance recovery_threshold : ℚ)
  deriving Repr, DecidableEq

def NotifRequest.kind : NotifRequest → MsgKind
  | .lowBalance _ _ _ _ _ => .lowBalance
  | .depleted _ _ _ => .depleted
  | .recovered _ _ => .recovered

/-- Whether the message is sent with `disable_notification=True` in the
source: only the recovery message is (the daily report, outside this
state machine, also is). -/
def NotifRequest.isSilent : NotifRequest → Bool
  | .recovered _ _ => true
  | _ => false

/-- Result of one `poll_and_alert` invocation: the message attempted (if
any), the in-memory state afterwards, and whether `_save_state` ran. -/
structure PollResult where
  attempt : Option NotifRequest
  state : AlertState
  persisted : Bool
  deriving Repr, DecidableEq

/-- The `should_send` computation shared by both alert branches of
`poll_and_alert`: send immediately when `last_alert_at is None`, otherwise
when `(now_ts - last_alert_at) / 60 >= current_interval_min`. -/
def should_send (st : AlertState) (now_ts : ℚ) : Bool :=
  match st.last_alert_at with
  | none => true
  | some t => decide (st.current_interval_min ≤ (now_ts - t) / 60)

/-- State update performed after a successful alert send. -/
def after_send (cfg : AppConfig) (st : AlertState) (now_ts : ℚ) : AlertState :=
  { last_alert_at := some now_ts
    current_interval_min :=
      max cfg.alert_minimum_interval_minutes
        (st.current_interval_min * cfg.alert_decay_factor)
    alert_count := st.alert_count + 1 }

/-- The fresh/reset state `AlertState(None, alert_initial_interval_minutes, 0)`,
built identically at the end of `_load_state` and in both recovery branches. -/
def reset_state (cfg : AppConfig) : AlertState :=
  { last_alert_at := none
    current_interval_min := cfg.alert_initial_interval_minutes
    alert_count := 0 }

/-- The recovery block (identical in the zero-spend and positive-spend
branches): a silent recovery message when `alert_count > 0`, then an
unconditional state reset and save. -/
def recovery_branch (cfg : AppConfig) (st : AlertState) (balance : ℚ) :
    PollResult :=
  { attempt :=
      if 0 < st.alert_count then
        some (.recovered balance (cfg.low_balance_usd + cfg.alert_hysteresis_usd))
      else none
    state := reset_state cfg
    persisted := true }

/-- `AlertsService.poll_and_alert`. The `math.isinf(hours_left)` test is the
`none` case of `format_hours_left`. -/
def poll_and_alert (cfg : AppConfig) (st : AlertState) (info : BalanceInfo)
    (now_ts : ℚ) (send_ok : Bool) : PollResult :=
  let balance := info.client_balance
  let spend := info.current_spend_per_hr
  let threshold := cfg.low_balance_usd
  let hysteresis := cfg.alert_hysteresis_usd
  match format_hours_left cfg balance spend with
  | none =>
    if balance < threshold then
      if should_send st now_ts then
        let req : NotifRequest :=
          .depleted balance threshold cfg.pod_stop_balance_usd
        if send_ok then
          { attempt := some req, state := after_send cfg st now_ts,
            persisted := true }
        else
          { attempt := some req, state := st, persisted := false }
      else { attempt := none, state := st, persisted := false }
    else if threshold + hysteresis ≤ balance then
      recovery_branch cfg st balance
    else { attempt := none, state := st, persisted := false }
  | some hours_left =>
    if balance < threshold then
      if should_send st now_ts then
        let req : NotifRequest :=
          .lowBalance balance threshold spend cfg.pod_stop_balance_usd
            hours_left
        if send_ok then
          { attempt := some req, state := after_send cfg st now_ts,
            persisted := true }
        else
          { attempt := some req, state := st, persisted := false }
      else { attempt := none, state := st, persisted := false }
    else if threshold + hysteresis ≤ balance then
      recovery_branch cfg st balance
    else { attempt := none, state := st, persisted := false }

/-- The decision content of a poll result: which template (if any) was
selected and with which audibility, the resulting state, and whether a save
happened — everything except the numbers interpolated into the text. -/
def decision (r : PollResult) :
    Option MsgKind × Option Bool × AlertState × Bool :=
  (r.attempt.map NotifRequest.kind, r.attempt.map NotifRequest.isSilent,
    r.state, r.persisted)

/-- The message built when the balance is below threshold: the depleted
template on the infinite-hours branch, the low-balance template otherwise. -/
def alert_req (cfg : AppConfig) (info : BalanceInfo) : NotifRequest :=
  match format_hours_left cfg info.client_balance info.current_spend_per_hr with
  | none =>
    .depleted info.client_balance cfg.low_balance_usd cfg.pod_stop_balance_usd
  | some hours_left =>
    .lowBalance info.client_balance cfg.low_balance_usd
      info.current_spend_per_hr cfg.pod_stop_balance_usd hours_left

/-- One back-off update: `max(alert_minimum_interval_minutes,
current_interval_min * alert_decay_factor)`. -/
def backoff_step (m d i : ℚ) : ℚ := max m (i * d)

/-! ## The persisted state file (`_load_state`)

`_load_state` reads the state path (if it exists), parses JSON, and builds
an `AlertState` from the parsed dictionary; *any* exception in that block —
unreadable file, invalid JSON, a non-object document, or a failing
`float(...)`/`int(...)` conversion — falls through to the fresh default
state. The `last_alert_at` entry is stored without any conversion. -/

/-- A parsed JSON document (what `json.loads` can return). -/
inductive JVal where
  | jnull
  | jbool (b : Bool)
  | jnum (q : ℚ)
  | jstr (s : String)
  | jarr (elems : List JVal)
  | jobj (fields : List (String × JVal))
  deriving Repr

/-- Python truthiness of a JSON value (`None`, `False`, `0`, `""`, `[]` and
`{}` are falsy), as used by the `x or default` idioms in `_load_state`. -/
def jFalsy : JVal → Bool
  | .jnull => true
  | .jbool b => !b
  | .jnum q => decide (q = 0)
  | .jstr s => s.isEmpty
  | .jarr elems => elems.isEmpty
  | .jobj fields => fields.isEmpty

/-- `dict.get(key)` on a parsed JSON object, yielding `None` (`jnull`) for a
missing key. For duplicate keys `json.loads` keeps the last occurrence. -/
def jget (fields : List (String × JVal)) (key : String) : JVal :=
  fields.foldl (fun acc kv => if kv.1 = key then kv.2 else acc) JVal.jnull

/-- Value of a nonempty all-digit character run, `none` otherwise. -/
def digitsVal? (cs : List Char) : Option ℕ :=
  if cs.isEmpty then none
  else if cs.all Char.isDigit then
    some (cs.foldl (fun n c => 10 * n + (c.toNat - 48)) 0)
  else none

/-- Unsigned part of Python `float(string)` for plain decimal literals:
digits with an optional single decimal point (at least one digit overall). -/
def pyParseUnsignedFloat (cs : List Char) : Option ℚ :=
  match cs.splitOn '.' with
  | [intPart] => (digitsVal? intPart).map (fun n => (n : ℚ))
  | [intPart, fracPart] =>
    if intPart.isEmpty && fracPart.isEmpty then none
    else if intPart.all Char.isDigit && fracPart.all Char.isDigit then
      some ((intPart.foldl (fun n c => 10 * n + (c.toNat - 48)) 0 : ℕ)
        + ((fracPart.foldl (fun n c => 10 * n + (c.toNat - 48)) 0 : ℕ) : ℚ)
          / (10 : ℚ) ^ fracPart.length)
    else none
  | _ => none

/-- Python `float(x)` on a JSON value: numbers pass through, booleans become
`1.0`/`0.0`, decimal-literal strings parse, everything else raises (`none`). -/
def pyFloat : JVal → Option ℚ
  | .jnum q => some q
  | .jbool b => some (if b then 1 else 0)
  | .jstr s =>
    match s.toList with
    | '-' :: rest => (pyParseUnsignedFloat rest).map Neg.neg
    | '+' :: rest => pyParseUnsignedFloat rest
    | cs => pyParseUnsignedFloat cs
  | _ => none

/-- Python `int(q)` on a float: truncation toward zero. -/
def pyTrunc (q : ℚ) : ℤ := if 0 ≤ q then ⌊q⌋ else -⌊-q⌋

/-- Python `int(x)` on a JSON value: numbers truncate toward zero, booleans
become `1`/`0`, integer-literal strings parse, everything else raises. -/
def pyInt : JVal → Option ℤ
  | .jnum q => some (pyTrunc q)
  | .jbool b => some (if b then 1 else 0)
  | .jstr s =>
    match s.toList with
    | '-' :: rest => (digitsVal? rest).map (fun n => -(n : ℤ))
    | '+' :: rest => (digitsVal? rest).map (fun n => (n : ℤ))
    | cs => (digitsVal? cs).map (fun n => (n : ℤ))
  | _ => none

/-- What the state path holds when `_load_state` runs. -/
inductive FileContent where
  | absent
  | unparseable
  | parsed (v : JVal)

/-- The state as `_load_state` actually builds it: `last_alert_at` is the raw
JSON value from the file (stored without conversion — the dataclass does not
validate it), the other two fields go through `float(...)`/`int(...)`. -/
structure RawAlertState where
  last_alert_at : JVal
  current_interval_min : ℚ
  alert_count : ℤ

/-- `float(raw.get("current_interval_min") or cfg.alert_initial_interval_minutes)`;
`none` models the conversion raising. -/
def load_interval (cfg : AppConfig) (fields : List (String × JVal)) :
    Option ℚ :=
  let v := jget fields ("current_interval_min")
  if jFalsy v then some cfg.alert_initial_interval_minutes else pyFloat v

/-- `int(raw.get("alert_count") or 0)`; `none` models the conversion raising. -/
def load_count (fields : List (String × JVal)) : Option ℤ :=
  let v := jget fields ("alert_count")
  if jFalsy v then some 0 else pyInt v

/-- The fresh default state returned when the file is absent or anything in
the read/parse/convert block raises. -/
def fresh_raw (cfg : AppConfig) : RawAlertState :=
  { last_alert_at := JVal.jnull
    current_interval_min := cfg.alert_initial_interval_minutes
    alert_count := 0 }

/-- `AlertsService._load_state`. A non-object document makes `raw.get`
raise `AttributeError`, and a failing field conversion raises inside the
`try` block; both land on the fresh default. -/
def load_state (cfg : AppConfig) (file : FileContent) : RawAlertState :=
  match file with
  | .absent => fresh_raw cfg
  | .unparseable => fresh_raw cfg
  | .parsed (JVal.jobj fields) =>
    match load_interval cfg fields, load_count fields with
    | some i, some c =>
      { last_alert_at := jget fields ("last_alert_at")
        current_interval_min := i
        alert_count := c }
    | _, _ => fresh_raw cfg
  | .parsed _ => fresh_raw cfg

/-! ## Concrete instances used by witnesses and counterexamples -/

/-- The default configuration values of `config.py`
(`low_balance_usd=4000`, `alert_initial_interval_minutes=120`,
`alert_decay_factor=0.5`, `alert_minimum_interval_minutes=15`,
`alert_hysteresis_usd=2`), with the `pod_stop_balance_usd` the engine reads
taken as `0` as in `simulate.py`. -/
def cfgDefault : AppConfig :=
  { low_balance_usd := 4000
    pod_stop_balance_usd := 0
    alert_initial_interval_minutes := 120
    alert_decay_factor := 1 / 2
    alert_minimum_interval_minutes := 15
    alert_hysteresis_usd := 2 }

/-- A mid-streak alerting state: three alerts sent, last at timestamp 0,
interval decayed to 30 minutes. -/
def stAlerting : AlertState :=
  { last_alert_at := some 0
    current_interval_min := 30
    alert_count := 3 }

/-! ## Branch characterizations of `poll_and_alert` -/

lemma format_hours_left_pos (cfg : AppConfig) {s : ℚ} (b : ℚ) (hs : 0 < s) :
    format_hours_left cfg b s = some ((b - cfg.pod_stop_balance_usd) / s) := by
  simp [format_hours_left, not_le.mpr hs]

lemma format_hours_left_nonpos (cfg : AppConfig) {s : ℚ} (b : ℚ) (hs : s ≤ 0) :
    format_hours_left cfg b s = none := by
  simp [format_hours_left, hs]

lemma poll_low (cfg : AppConfig) (st : AlertState) (info : BalanceInfo)
    (now_ts : ℚ) (send_ok : Bool)
    (hbal : info.client_balance < cfg.low_balance_usd) :
    poll_and_alert cfg st info now_ts send_ok =
      if should_send st now_ts then
        if send_ok then
          { attempt := some (alert_req cfg info),
            state := after_send cfg st now_ts, persisted := true }
        else
          { attempt := some (alert_req cfg info), state := st,
            persisted := false }
      else { attempt := none, state := st, persisted := false } := by
  unfold poll_and_alert alert_req
  cases hfmt :
      format_hours_left cfg info.client_balance info.current_spend_per_hr <;>
    simp [hfmt, hbal]

lemma poll_recovery (cfg : AppConfig) (st : AlertState) (info : BalanceInfo)
    (now_ts : ℚ) (send_ok : Bool)
    (hbal : ¬ info.client_balance < cfg.low_balance_usd)
    (hrec : cfg.low_balance_usd + cfg.alert_hysteresis_usd
      ≤ info.client_balance) :
    poll_and_alert cfg st info now_ts send_ok
      = recovery_branch cfg st info.client_balance := by
  unfold poll_and_alert
  cases hfmt :
      format_hours_left cfg info.client_balance info.current_spend_per_hr <;>
    simp [hfmt, hbal, hrec]

lemma poll_deadzone (cfg : AppConfig) (st : AlertState) (info : BalanceInfo)
    (now_ts : ℚ) (send_ok : Bool)
    (hbal : ¬ info.client_balance < cfg.low_balance_usd)
    (hrec : ¬ cfg.low_balance_usd + cfg.alert_hysteresis_usd
      ≤ info.client_balance) :
    poll_and_alert cfg st info now_ts send_ok
      = { attempt := none, state := st, persisted := false } := by
  unfold poll_and_alert
  cases hfmt :
      format_hours_left cfg info.client_balance info.current_spend_per_hr <;>
    simp [hfmt, hbal, hrec]

lemma alert_req_not_silent (cfg : AppConfig) (info : BalanceInfo) :
    (alert_req cfg info).isSilent = false := by
  unfold alert_req
  cases format_hours_left cfg info.client_balance info.current_spend_per_hr <;>
    rfl

/-! ## Claim theorems -/

/-- C2: from any state with `alert_count > 0`, a poll whose balance is at
least `low_balance_usd + alert_hysteresis_usd` (any spend rate) attempts
exactly one recovery notification, silently, and — whether or not the send
succeeds — resets the state to
`(None, alert_initial_interval_minutes, 0)` and persists it. -/
theorem recovery_resets_state_and_is_silent
    (cfg : AppConfig) (st : AlertState) (info : BalanceInfo) (now_ts : ℚ)
    (send_ok : Bool) (hcount : 0 < st.alert_count)
    (hhyst : 0 ≤ cfg.alert_hysteresis_usd)
    (hbal : cfg.low_balance_usd + cfg.alert_hysteresis_usd
      ≤ info.client_balance) :
    (poll_and_alert cfg st info now_ts send_ok).attempt
      = some (.recovered info.client_balance
          (cfg.low_balance_usd + cfg.alert_hysteresis_usd)) ∧
    ((poll_and_alert cfg st info now_ts send_ok).attempt.map
      NotifRequest.isSilent) = some true ∧
    (poll_and_alert cfg st info now_ts send_ok).state = reset_state cfg ∧
    (poll_and_alert cfg st info now_ts send_ok).persisted = true := by
  have hnl : ¬ info.client_balance < cfg.low_balance_usd :=
    not_lt.mpr (le_trans (le_add_of_nonneg_right hhyst) hbal)
  rw [poll_recovery cfg st info now_ts send_ok hnl hbal]
  simp [recovery_branch, hcount, NotifRequest.isSilent]

theorem recovery_resets_state_and_is_silent_witness :
    (poll_and_alert cfgDefault stAlerting ⟨5000, 1⟩ 0 false).attempt
      = some (.recovered 5000
          (cfgDefault.low_balance_usd + cfgDefault.alert_hysteresis_usd)) ∧
    ((poll_and_alert cfgDefault stAlerting ⟨5000, 1⟩ 0 false).attempt.map
      NotifRequest.isSilent) = some true ∧
    (poll_and_alert cfgDefault stAlerting ⟨5000, 1⟩ 0 false).state
      = reset_state cfgDefault ∧
    (poll_and_alert cfgDefault stAlerting ⟨5000, 1⟩ 0 false).persisted
      = true :=
  recovery_resets_state_and_is_silent cfgDefault stAlerting ⟨5000, 1⟩ 0 false
    (by norm_num [stAlerting]) (by norm_num [cfgDefault])
    (by norm_num [cfgDefault])

/-- C3: when the send of a below-threshold (non-recovery) alert fails, the
state is exactly the prior state and nothing is persisted, so the next poll
retries with the same interval and count. -/
theorem failed_alert_send_is_pure_retry
    (cfg : AppConfig) (st : AlertState) (info : BalanceInfo) (now_ts : ℚ)
    (hbal : info.client_balance < cfg.low_balance_usd) :
    (poll_and_alert cfg st info now_ts false).state = st ∧
    (poll_and_alert cfg st info now_ts false).persisted = false := by
  rw [poll_low cfg st info now_ts false hbal]
  cases hss : should_send st now_ts <;> simp [hss]

theorem failed_alert_send_is_pure_retry_witness :
    (poll_and_alert cfgDefault stAlerting ⟨10, 1⟩ 3600 false).state
      = stAlerting ∧
    (poll_and_alert cfgDefault stAlerting ⟨10, 1⟩ 3600 false).persisted
      = false :=
  failed_alert_send_is_pure_retry cfgDefault stAlerting ⟨10, 1⟩ 3600
    (by norm_num [cfgDefault])

/-- C4: below threshold (either spend branch), a first-in-streak poll
(`last_alert_at is None`) always attempts an alert; otherwise an alert is
attempted iff `(now_ts - last_alert_at) / 60 >= current_interval_min`, and
when that test fails nothing is emitted, the state is untouched and nothing
is persisted. -/
theorem cooldown_gate
    (cfg : AppConfig) (st : AlertState) (info : BalanceInfo) (now_ts : ℚ)
    (send_ok : Bool) (hbal : info.client_balance < cfg.low_balance_usd) :
    (st.last_alert_at = none →
      (poll_and_alert cfg st info now_ts send_ok).attempt.isSome = true) ∧
    (∀ t, st.last_alert_at = some t →
      ((poll_and_alert cfg st info now_ts send_ok).attempt.isSome = true
        ↔ st.current_interval_min ≤ (now_ts - t) / 60)) ∧
    (∀ t, st.last_alert_at = some t →
      (now_ts - t) / 60 < st.current_interval_min →
      (poll_and_alert cfg st info now_ts send_ok).attempt = none ∧
      (poll_and_alert cfg st info now_ts send_ok).state = st ∧
      (poll_and_alert cfg st info now_ts send_ok).persisted = false) := by
  have hp := poll_low cfg st info now_ts send_ok hbal
  refine ⟨?_, ?_, ?_⟩
  · intro h0
    rw [hp]
    cases send_ok <;> simp [should_send, h0]
  · intro t ht
    rw [hp]
    by_cases hc : st.current_interval_min ≤ (now_ts - t) / 60
    · cases send_ok <;> simp [should_send, ht, hc]
    · cases send_ok <;> simp [should_send, ht, hc]
  · intro t ht hlt
    rw [hp]
    simp [should_send, ht, not_le.mpr hlt]

theorem cooldown_gate_witness :
    ((poll_and_alert cfgDefault (reset_state cfgDefault) ⟨10, 1⟩ 5
      true).attempt.isSome = true) ∧
    ((poll_and_alert cfgDefault stAlerting ⟨10, 1⟩ 3600 true).attempt.isSome
        = true
      ↔ stAlerting.current_interval_min ≤ (3600 - 0) / 60) ∧
    ((poll_and_alert cfgDefault stAlerting ⟨10, 1⟩ 60 true).attempt = none ∧
     (poll_and_alert cfgDefault stAlerting ⟨10, 1⟩ 60 true).state
        = stAlerting ∧
     (poll_and_alert cfgDefault stAlerting ⟨10, 1⟩ 60 true).persisted
        = false) :=
  ⟨(cooldown_gate cfgDefault (reset_state cfgDefault) ⟨10, 1⟩ 5 true
      (by norm_num [cfgDefault])).1 rfl,
   (cooldown_gate cfgDefault stAlerting ⟨10, 1⟩ 3600 true
      (by norm_num [cfgDefault])).2.1 0 rfl,
   (cooldown_gate cfgDefault stAlerting ⟨10, 1⟩ 60 true
      (by norm_num [cfgDefault])).2.2 0 rfl
      (by norm_num [stAlerting])⟩

/-- C8: every below-threshold poll that attempts an alert selects the
depleted template when `spend_per_hr == 0` and the standard low-balance
template (with the hours-left payload) when `spend_per_hr > 0`; in both
cases the message is not silent. -/
theorem alert_template_and_priority
    (cfg : AppConfig) (st : AlertState) (info : BalanceInfo) (now_ts : ℚ)
    (send_ok : Bool) (hbal : info.client_balance < cfg.low_balance_usd)
    (hsend : should_send st now_ts = true) :
    (info.current_spend_per_hr = 0 →
      (poll_and_alert cfg st info now_ts send_ok).attempt
        = some (.depleted info.client_balance cfg.low_balance_usd
            cfg.pod_stop_balance_usd)) ∧
    (0 < info.current_spend_per_hr →
      (poll_and_alert cfg st info now_ts send_ok).attempt
        = some (.lowBalance info.client_balance cfg.low_balance_usd
            info.current_spend_per_hr cfg.pod_stop_balance_usd
            ((info.client_balance - cfg.pod_stop_balance_usd)
              / info.current_spend_per_hr))) ∧
    ((poll_and_alert cfg st info now_ts send_ok).attempt.map
      NotifRequest.isSilent) = some false := by
  have hA : (poll_and_alert cfg st info now_ts send_ok).attempt
      = some (alert_req cfg info) := by
    rw [poll_low cfg st info now_ts send_ok hbal]
    cases send_ok <;> simp [hsend]
  refine ⟨?_, ?_, ?_⟩
  · intro h0
    rw [hA]
    unfold alert_req
    rw [format_hours_left_nonpos cfg info.client_balance h0.le]
  · intro hpos
    rw [hA]
    unfold alert_req
    rw [format_hours_left_pos cfg info.client_balance hpos]
  · rw [hA]
    simp [alert_req_not_silent]

theorem alert_template_and_priority_witness :
    ((poll_and_alert cfgDefault (reset_state cfgDefault) ⟨10, 0⟩ 0
        true).attempt
      = some (.depleted 10 cfgDefault.low_balance_usd
          cfgDefault.pod_stop_balance_usd)) ∧
    ((poll_and_alert cfgDefault (reset_state cfgDefault) ⟨10, 2⟩ 0
        true).attempt
      = some (.lowBalance 10 cfgDefault.low_balance_usd 2
          cfgDefault.pod_stop_balance_usd
          ((10 - cfgDefault.pod_stop_balance_usd) / 2))) ∧
    ((poll_and_alert cfgDefault (reset_state cfgDefault) ⟨10, 0⟩ 0
        true).attempt.map NotifRequest.isSilent = some false) :=
  ⟨(alert_template_and_priority cfgDefault (reset_state cfgDefault) ⟨10, 0⟩
      0 true (by norm_num [cfgDefault]) rfl).1 rfl,
   (alert_template_and_priority cfgDefault (reset_state cfgDefault) ⟨10, 2⟩
      0 true (by norm_num [cfgDefault]) rfl).2.1 (by norm_num),
   (alert_template_and_priority cfgDefault (reset_state cfgDefault) ⟨10, 0⟩
      0 true (by norm_num [cfgDefault]) rfl).2.2⟩

/-- C10: a strictly negative spend rate is folded into the zero-spend
branch: hours-left is infinite, the whole poll result coincides with the
one for spend exactly `0`, and a below-threshold alert uses the depleted
template. -/
theorem negative_spend_folds_into_zero_spend
    (cfg : AppConfig) (st : AlertState) (now_ts : ℚ) (send_ok : Bool)
    (balance spend : ℚ) (hneg : spend < 0) :
    format_hours_left cfg balance spend = none ∧
    poll_and_alert cfg st ⟨balance, spend⟩ now_ts send_ok
      = poll_and_alert cfg st ⟨balance, 0⟩ now_ts send_ok ∧
    (balance < cfg.low_balance_usd → should_send st now_ts = true →
      ((poll_and_alert cfg st ⟨balance, spend⟩ now_ts send_ok).attempt).map
          NotifRequest.kind
        = some MsgKind.depleted) := by
  have h1 : format_hours_left cfg balance spend = none :=
    format_hours_left_nonpos cfg balance hneg.le
  have h0 : format_hours_left cfg balance 0 = none :=
    format_hours_left_nonpos cfg balance le_rfl
  refine ⟨h1, ?_, ?_⟩
  · unfold poll_and_alert
    simp only [h1, h0]
  · intro hbal hsend
    rw [poll_low cfg st ⟨balance, spend⟩ now_ts send_ok hbal]
    cases send_ok <;> simp [hsend, alert_req, h1, NotifRequest.kind]

theorem negative_spend_folds_into_zero_spend_witness :
    format_hours_left cfgDefault 10 (-1) = none ∧
    poll_and_alert cfgDefault (reset_state cfgDefault) ⟨10, -1⟩ 0 true
      = poll_and_alert cfgDefault (reset_state cfgDefault) ⟨10, 0⟩ 0 true ∧
    (((poll_and_alert cfgDefault (reset_state cfgDefault) ⟨10, -1⟩ 0
        true).attempt).map NotifRequest.kind = some MsgKind.depleted) := by
  have h := negative_spend_folds_into_zero_spend cfgDefault
    (reset_state cfgDefault) 0 true 10 (-1) (by norm_num)
  exact ⟨h.1, h.2.1, h.2.2 (by norm_num [cfgDefault]) rfl⟩

/-- C7 counterexample: from the Normal-like state `(None, 50, 0)` under the
default configuration, a recovery-zone poll is *not* a no-op — the state is
overwritten with the reset value (interval 120) and persisted. -/
theorem normal_recovery_zone_changes_state :
    (poll_and_alert cfgDefault ⟨none, 50, 0⟩ ⟨5000, 1⟩ 0 true).state
      ≠ (⟨none, 50, 0⟩ : AlertState) ∧
    (poll_and_alert cfgDefault ⟨none, 50, 0⟩ ⟨5000, 1⟩ 0 true).persisted
      = true := by
  rw [poll_recovery cfgDefault ⟨none, 50, 0⟩ ⟨5000, 1⟩ 0 true
    (by norm_num [cfgDefault]) (by norm_num [cfgDefault])]
  refine ⟨?_, rfl⟩
  intro h
  have : (120 : ℚ) = 50 :=
    congrArg AlertState.current_interval_min h
  norm_num at this

/-- C7 amended: the dead-zone poll is a genuine no-op from any prior state;
a recovery-zone poll from Normal (`alert_count = 0`) emits no notification
but still overwrites the state with the reset value and persists it (so it
is value-preserving only if the prior state already equals the reset
state). -/
theorem deadzone_noop_and_normal_recovery_reset
    (cfg : AppConfig) (st : AlertState) (info : BalanceInfo) (now_ts : ℚ)
    (send_ok : Bool) :
    (cfg.low_balance_usd ≤ info.client_balance →
      info.client_balance < cfg.low_balance_usd + cfg.alert_hysteresis_usd →
      (poll_and_alert cfg st info now_ts send_ok).attempt = none ∧
      (poll_and_alert cfg st info now_ts send_ok).state = st ∧
      (poll_and_alert cfg st info now_ts send_ok).persisted = false) ∧
    (st.alert_count = 0 → 0 ≤ cfg.alert_hysteresis_usd →
      cfg.low_balance_usd + cfg.alert_hysteresis_usd ≤ info.client_balance →
      (poll_and_alert cfg st info now_ts send_ok).attempt = none ∧
      (poll_and_alert cfg st info now_ts send_ok).state = reset_state cfg ∧
      (poll_and_alert cfg st info now_ts send_ok).persisted = true) := by
  constructor
  · intro h1 h2
    rw [poll_deadzone cfg st info now_ts send_ok (not_lt.mpr h1)
      (not_le.mpr h2)]
    exact ⟨rfl, rfl, rfl⟩
  · intro hc hh hr
    have hnl : ¬ info.client_balance < cfg.low_balance_usd :=
      not_lt.mpr (le_trans (le_add_of_nonneg_right hh) hr)
    rw [poll_recovery cfg st info now_ts send_ok hnl hr]
    simp [recovery_branch, hc]

/-! ## Back-off sequence lemmas (for C5) -/

lemma backoff_closed (m d i₀ : ℚ) (hm : 0 ≤ m) (hd0 : 0 ≤ d) (hd1 : d ≤ 1)
    (hi : m ≤ i₀) :
    ∀ n, (backoff_step m d)^[n] i₀ = max m (i₀ * d ^ n) := by
  intro n
  induction n with
  | zero => simp [max_eq_right hi]
  | succ n ih =>
    calc (backoff_step m d)^[n + 1] i₀
        = backoff_step m d ((backoff_step m d)^[n] i₀) :=
          Function.iterate_succ_apply' (backoff_step m d) n i₀
      _ = max m (max m (i₀ * d ^ n) * d) := by rw [ih]; rfl
      _ = max m (max (m * d) (i₀ * d ^ n * d)) := by
          rw [max_mul_of_nonneg _ _ hd0]
      _ = max (max m (m * d)) (i₀ * d ^ n * d) := by rw [← max_assoc]
      _ = max m (i₀ * d ^ n * d) := by
          rw [max_eq_left (mul_le_of_le_one_right hm hd1)]
      _ = max m (i₀ * d ^ (n + 1)) := by rw [mul_assoc, ← pow_succ]

lemma backoff_antitone (m d i₀ : ℚ) (hm : 0 ≤ m) (hd0 : 0 ≤ d) (hd1 : d ≤ 1)
    (hi : m ≤ i₀) :
    ∀ n, (backoff_step m d)^[n + 1] i₀ ≤ (backoff_step m d)^[n] i₀ := by
  intro n
  rw [backoff_closed m d i₀ hm hd0 hd1 hi, backoff_closed m d i₀ hm hd0 hd1 hi]
  exact max_le_max le_rfl
    (mul_le_mul_of_nonneg_left (pow_le_pow_of_le_one hd0 hd1 (Nat.le_succ n))
      (le_trans hm hi))

lemma backoff_lower (m d i₀ : ℚ) (hm : 0 ≤ m) (hd0 : 0 ≤ d) (hd1 : d ≤ 1)
    (hi : m ≤ i₀) :
    ∀ n, m ≤ (backoff_step m d)^[n] i₀ := by
  intro n
  rw [backoff_closed m d i₀ hm hd0 hd1 hi]
  exact le_max_left _ _

lemma backoff_eventually (m d i₀ : ℚ) (hm : 0 < m) (hd0 : 0 < d)
    (hd1 : d < 1) (hi : m ≤ i₀) :
    ∃ N, ∀ n, N ≤ n → (backoff_step m d)^[n] i₀ = m := by
  have hi₀ : 0 < i₀ := lt_of_lt_of_le hm hi
  obtain ⟨N, hN⟩ := exists_pow_lt_of_lt_one (div_pos hm hi₀) hd1
  refine ⟨N, fun n hn => ?_⟩
  rw [backoff_closed m d i₀ hm.le hd0.le hd1.le hi]
  have h1 : i₀ * d ^ n ≤ i₀ * d ^ N :=
    mul_le_mul_of_nonneg_left (pow_le_pow_of_le_one hd0.le hd1.le hn) hi₀.le
  have h2 : i₀ * d ^ N < m := by
    have := (lt_div_iff₀ hi₀).mp hN
    linarith [this]
  exact max_eq_left (le_of_lt (lt_of_le_of_lt h1 h2))

/-- State reached by `poll_and_alert` is always one of: the prior state, the
post-send update, or the reset state. -/
lemma poll_state_cases (cfg : AppConfig) (st : AlertState) (info : BalanceInfo)
    (now_ts : ℚ) (send_ok : Bool) :
    (poll_and_alert cfg st info now_ts send_ok).state = st ∨
    (poll_and_alert cfg st info now_ts send_ok).state
      = after_send cfg st now_ts ∨
    (poll_and_alert cfg st info now_ts send_ok).state = reset_state cfg := by
  by_cases hbal : info.client_balance < cfg.low_balance_usd
  · rw [poll_low cfg st info now_ts send_ok hbal]
    cases hss : should_send st now_ts <;> cases send_ok <;> simp
  · by_cases hrec : cfg.low_balance_usd + cfg.alert_hysteresis_usd
        ≤ info.client_balance
    · rw [poll_recovery cfg st info now_ts send_ok hbal hrec]
      right; right; rfl
    · rw [poll_deadzone cfg st info now_ts send_ok hbal hrec]
      left; rfl

/-- C5: a successful alert send updates the interval to
`max(alert_minimum_interval_minutes, current_interval_min * alert_decay_factor)`
(that is, one `backoff_step`), bumps `alert_count` by one and stamps
`last_alert_at` with the current time; and for any decay factor in `(0, 1)`
and minimum `m > 0`, iterating `backoff_step` from any start `≥ m` is
non-increasing, bounded below by `m`, and reaches `m` after finitely many
sends. -/
theorem backoff_update_and_convergence
    (cfg : AppConfig) (st : AlertState) (info : BalanceInfo) (now_ts : ℚ)
    (hbal : info.client_balance < cfg.low_balance_usd)
    (hsend : should_send st now_ts = true) :
    ((poll_and_alert cfg st info now_ts true).state.current_interval_min
        = backoff_step cfg.alert_minimum_interval_minutes
            cfg.alert_decay_factor st.current_interval_min ∧
      (poll_and_alert cfg st info now_ts true).state.alert_count
        = st.alert_count + 1 ∧
      (poll_and_alert cfg st info now_ts true).state.last_alert_at
        = some now_ts) ∧
    (∀ m d i₀ : ℚ, 0 < d → d < 1 → 0 < m → m ≤ i₀ →
      (∀ n, (backoff_step m d)^[n + 1] i₀ ≤ (backoff_step m d)^[n] i₀) ∧
      (∀ n, m ≤ (backoff_step m d)^[n] i₀) ∧
      (∃ N, ∀ n, N ≤ n → (backoff_step m d)^[n] i₀ = m)) := by
  constructor
  · rw [poll_low cfg st info now_ts true hbal]
    simp [hsend, after_send, backoff_step]
  · intro m d i₀ hd0 hd1 hm hi
    exact ⟨backoff_antitone m d i₀ hm.le hd0.le hd1.le hi,
      backoff_lower m d i₀ hm.le hd0.le hd1.le hi,
      backoff_eventually m d i₀ hm hd0 hd1 hi⟩

theorem backoff_update_and_convergence_witness :
    ((poll_and_alert cfgDefault stAlerting ⟨10, 1⟩ 3600
        true).state.current_interval_min
      = backoff_step cfgDefault.alert_minimum_interval_minutes
          cfgDefault.alert_decay_factor stAlerting.current_interval_min ∧
     (poll_and_alert cfgDefault stAlerting ⟨10, 1⟩ 3600
        true).state.alert_count = stAlerting.alert_count + 1 ∧
     (poll_and_alert cfgDefault stAlerting ⟨10, 1⟩ 3600
        true).state.last_alert_at = some 3600) ∧
    ((∀ n, (backoff_step 15 (1/2))^[n + 1] 120
        ≤ (backoff_step 15 (1/2))^[n] 120) ∧
     (∀ n, (15 : ℚ) ≤ (backoff_step 15 (1/2))^[n] 120) ∧
     (∃ N, ∀ n, N ≤ n → (backoff_step 15 (1/2))^[n] 120 = 15)) :=
  ⟨(backoff_update_and_convergence cfgDefault stAlerting ⟨10, 1⟩ 3600
      (by norm_num [cfgDefault]) (by norm_num [should_send, stAlerting])).1,
   (backoff_update_and_convergence cfgDefault stAlerting ⟨10, 1⟩ 3600
      (by norm_num [cfgDefault]) (by norm_num [should_send, stAlerting])).2
      15 (1/2) 120 (by norm_num) (by norm_num) (by norm_num) (by norm_num)⟩

/-- C6 counterexample: under the default configuration (minimum interval 15),
a state file holding `current_interval_min = 5` loads as-is — `_load_state`
does not clamp to the configured minimum, so the claimed invariant fails on
the loaded state. -/
theorem interval_invariant_fails_on_loaded_file :
    ¬ (cfgDefault.alert_minimum_interval_minutes
        ≤ (load_state cfgDefault (.parsed (.jobj [("current_interval_min",
            .jnum 5)]))).current_interval_min) := by
  decide

/-- C6 amended: when the configuration satisfies
`alert_minimum_interval_minutes ≤ alert_initial_interval_minutes`, the
invariant `current_interval_min ≥ alert_minimum_interval_minutes` holds for
the fresh default state and is preserved by every `poll_and_alert`
transition; a loaded state file, however, can violate it (see the
counterexample). -/
theorem interval_invariant_under_wellformed_config
    (cfg : AppConfig)
    (hinit : cfg.alert_minimum_interval_minutes
      ≤ cfg.alert_initial_interval_minutes) :
    cfg.alert_minimum_interval_minutes
      ≤ (fresh_raw cfg).current_interval_min ∧
    (∀ (st : AlertState) (info : BalanceInfo) (now_ts : ℚ) (send_ok : Bool),
      cfg.alert_minimum_interval_minutes ≤ st.current_interval_min →
      cfg.alert_minimum_interval_minutes
        ≤ (poll_and_alert cfg st info now_ts
            send_ok).state.current_interval_min) := by
  refine ⟨hinit, ?_⟩
  intro st info now_ts send_ok hst
  rcases poll_state_cases cfg st info now_ts send_ok with h | h | h <;> rw [h]
  · exact hst
  · exact le_max_left _ _
  · exact hinit

theorem interval_invariant_under_wellformed_config_witness :
    cfgDefault.alert_minimum_interval_minutes
      ≤ (fresh_raw cfgDefault).current_interval_min ∧
    cfgDefault.alert_minimum_interval_minutes
      ≤ (poll_and_alert cfgDefault stAlerting ⟨10, 1⟩ 3600
          true).state.current_interval_min :=
  ⟨(interval_invariant_under_wellformed_config cfgDefault
      (by norm_num [cfgDefault])).1,
   (interval_invariant_under_wellformed_config cfgDefault
      (by norm_num [cfgDefault])).2 stAlerting ⟨10, 1⟩ 3600 true
      (by norm_num [stAlerting, cfgDefault])⟩

theorem deadzone_noop_and_normal_recovery_reset_witness :
    ((poll_and_alert cfgDefault stAlerting ⟨4001, 1⟩ 0 true).attempt = none ∧
     (poll_and_alert cfgDefault stAlerting ⟨4001, 1⟩ 0 true).state
        = stAlerting ∧
     (poll_and_alert cfgDefault stAlerting ⟨4001, 1⟩ 0 true).persisted
        = false) ∧
    ((poll_and_alert cfgDefault (reset_state cfgDefault) ⟨5000, 1⟩ 0
        true).attempt = none ∧
     (poll_and_alert cfgDefault (reset_state cfgDefault) ⟨5000, 1⟩ 0
        true).state = reset_state cfgDefault ∧
     (poll_and_alert cfgDefault (reset_state cfgDefault) ⟨5000, 1⟩ 0
        true).persisted = true) :=
  ⟨(deadzone_noop_and_normal_recovery_reset cfgDefault stAlerting ⟨4001, 1⟩
      0 true).1 (by norm_num [cfgDefault]) (by norm_num [cfgDefault]),
   (deadzone_noop_and_normal_recovery_reset cfgDefault
      (reset_state cfgDefault) ⟨5000, 1⟩ 0 true).2 rfl
      (by norm_num [cfgDefault]) (by norm_num [cfgDefault])⟩

/-- C9 counterexample: the parsed file
`{"last_alert_at": "abc"}` does not raise (nothing converts the value) and
does *not* load as the fresh default state: the junk string is stored in
`last_alert_at` as-is, while the claim requires the default
`(None, initial, 0)` for corrupt content. -/
theorem malformed_timestamp_not_defaulted :
    load_state cfgDefault (.parsed (.jobj [("last_alert_at", .jstr ("abc"))]))
      ≠ fresh_raw cfgDefault := by
  intro h
  have hL := congrArg RawAlertState.last_alert_at h
  rw [show (load_state cfgDefault
      (.parsed (.jobj [("last_alert_at", .jstr ("abc"))]))).last_alert_at
      = JVal.jstr ("abc") from rfl] at hL
  exact JVal.noConfusion hL

/-- C9 amended: `_load_state` is total (never raises): an absent file, an
unparseable file, a parsed non-object document, or an object whose
`current_interval_min`/`alert_count` conversions fail all yield the fresh
default state; however, an object whose two conversions succeed is loaded
as-is, with the raw `last_alert_at` JSON value stored unvalidated (so a
malformed `last_alert_at` survives the load instead of being defaulted). -/
theorem load_state_total_characterization (cfg : AppConfig) :
    (load_state cfg .absent = fresh_raw cfg) ∧
    (load_state cfg .unparseable = fresh_raw cfg) ∧
    (∀ v : JVal, (∀ fields, v ≠ JVal.jobj fields) →
      load_state cfg (.parsed v) = fresh_raw cfg) ∧
    (∀ fields, load_interval cfg fields = none ∨ load_count fields = none →
      load_state cfg (.parsed (.jobj fields)) = fresh_raw cfg) ∧
    (∀ fields i c, load_interval cfg fields = some i →
      load_count fields = some c →
      load_state cfg (.parsed (.jobj fields))
        = ⟨jget fields ("last_alert_at"), i, c⟩) := by
  refine ⟨rfl, rfl, ?_, ?_, ?_⟩
  · intro v hv
    cases v with
    | jobj fields => exact absurd rfl (hv fields)
    | jnull => rfl
    | jbool b => rfl
    | jnum q => rfl
    | jstr s => rfl
    | jarr elems => rfl
  · intro fields h
    rcases h with h | h
    · simp [load_state, h]
    · cases hI : load_interval cfg fields <;> simp [load_state, hI, h]
  · intro fields i c hi hc
    simp [load_state, hi, hc]

theorem load_state_total_characterization_witness :
    (load_state cfgDefault .absent = fresh_raw cfgDefault) ∧
    (load_state cfgDefault (.parsed (.jnum 7)) = fresh_raw cfgDefault) ∧
    (load_state cfgDefault
        (.parsed (.jobj [("current_interval_min", .jstr ("abc"))]))
      = fresh_raw cfgDefault) ∧
    (load_state cfgDefault (.parsed (.jobj [("current_interval_min",
        .jnum 5), ("alert_count", .jnum 2)]))
      = ⟨JVal.jnull, 5, 2⟩) :=
  ⟨(load_state_total_characterization cfgDefault).1,
   (load_state_total_characterization cfgDefault).2.2.1 (.jnum 7)
      (fun fields h => JVal.noConfusion h),
   (load_state_total_characterization cfgDefault).2.2.2.1
      [("current_interval_min", .jstr ("abc"))] (Or.inl (by decide)),
   (load_state_total_characterization cfgDefault).2.2.2.2
      [("current_interval_min", .jnum 5), ("alert_count", .jnum 2)] 5 2
      (by decide) (by decide)⟩

/-! ## C1: the hours-left computation -/

lemma poll_spend_nonpos_eq (cfg : AppConfig) (st : AlertState) (now_ts : ℚ)
    (send_ok : Bool) (b : ℚ) {s : ℚ} (hs : s ≤ 0) :
    poll_and_alert cfg st ⟨b, s⟩ now_ts send_ok
      = poll_and_alert cfg st ⟨b, 0⟩ now_ts send_ok := by
  unfold poll_and_alert
  simp only [format_hours_left_nonpos cfg b hs,
    format_hours_left_nonpos cfg b le_rfl]

lemma decision_spend_pos_eq (cfg : AppConfig) (st : AlertState) (now_ts : ℚ)
    (send_ok : Bool) (b : ℚ) {s₁ s₂ : ℚ} (h1 : 0 < s₁) (h2 : 0 < s₂) :
    decision (poll_and_alert cfg st ⟨b, s₁⟩ now_ts send_ok)
      = decision (poll_and_alert cfg st ⟨b, s₂⟩ now_ts send_ok) := by
  by_cases hbal : b < cfg.low_balance_usd
  · rw [poll_low cfg st ⟨b, s₁⟩ now_ts send_ok hbal,
      poll_low cfg st ⟨b, s₂⟩ now_ts send_ok hbal]
    cases hss : should_send st now_ts <;> cases send_ok <;>
      simp [decision, alert_req, format_hours_left_pos cfg b h1,
        format_hours_left_pos cfg b h2, NotifRequest.kind,
        NotifRequest.isSilent]
  · by_cases hrec : cfg.low_balance_usd + cfg.alert_hysteresis_usd ≤ b
    · rw [poll_recovery cfg st ⟨b, s₁⟩ now_ts send_ok hbal hrec,
        poll_recovery cfg st ⟨b, s₂⟩ now_ts send_ok hbal hrec]
    · rw [poll_deadzone cfg st ⟨b, s₁⟩ now_ts send_ok hbal hrec,
        poll_deadzone cfg st ⟨b, s₂⟩ now_ts send_ok hbal hrec]

/-- C1: for positive spend the engine computes
`hours_left = (balance - pod_stop_balance_usd) / spend_per_hr`, for zero
spend it is infinite (`none`); hours-left is purely descriptive — any two
snapshots with the same balance whose spend rates fall in the same class
(positive vs. not) produce the same decision (same template choice,
audibility, state transition and persistence). The configuration value it
divides through, `pod_stop_balance_usd`, is read by `alerts_service.py` but
is not among the fields `config.py` declares on `AppConfig` — accessing it
on a real `AppConfig` raises `AttributeError`. -/
theorem hours_left_formula_and_missing_config_field :
    (("pod_stop_balance_usd") ∈ alertsServiceConfigReads ∧
      ("pod_stop_balance_usd") ∉ appConfigFieldNames) ∧
    (∀ (cfg : AppConfig) (b s : ℚ), 0 < s →
      format_hours_left cfg b s
        = some ((b - cfg.pod_stop_balance_usd) / s)) ∧
    (∀ (cfg : AppConfig) (b : ℚ), format_hours_left cfg b 0 = none) ∧
    (∀ (cfg : AppConfig) (st : AlertState) (now_ts : ℚ) (send_ok : Bool)
      (b s₁ s₂ : ℚ), (0 < s₁ ↔ 0 < s₂) →
      decision (poll_and_alert cfg st ⟨b, s₁⟩ now_ts send_ok)
        = decision (poll_and_alert cfg st ⟨b, s₂⟩ now_ts send_ok)) := by
  refine ⟨by decide, ?_, ?_, ?_⟩
  · intro cfg b s hs
    exact format_hours_left_pos cfg b hs
  · intro cfg b
    exact format_hours_left_nonpos cfg b le_rfl
  · intro cfg st now_ts send_ok b s₁ s₂ hiff
    by_cases h1 : 0 < s₁
    · exact decision_spend_pos_eq cfg st now_ts send_ok b h1 (hiff.mp h1)
    · have h2 : ¬ 0 < s₂ := fun h => h1 (hiff.mpr h)
      rw [poll_spend_nonpos_eq cfg st now_ts send_ok b (not_lt.mp h1),
        poll_spend_nonpos_eq cfg st now_ts send_ok b (not_lt.mp h2)]

theorem hours_left_formula_and_missing_config_field_witness :
    (("pod_stop_balance_usd") ∈ alertsServiceConfigReads ∧
      ("pod_stop_balance_usd") ∉ appConfigFieldNames) ∧
    format_hours_left cfgDefault 100 2
      = some ((100 - cfgDefault.pod_stop_balance_usd) / 2) ∧
    format_hours_left cfgDefault 100 0 = none ∧
    decision (poll_and_alert cfgDefault stAlerting ⟨10, 1⟩ 0 true)
      = decision (poll_and_alert cfgDefault stAlerting ⟨10, 5⟩ 0 true) :=
  ⟨hours_left_formula_and_missing_config_field.1,
   hours_left_formula_and_missing_config_field.2.1 cfgDefault 100 2
     (by norm_num),
   hours_left_formula_and_missing_config_field.2.2.1 cfgDefault 100,
   hours_left_formula_and_missing_config_field.2.2.2 cfgDefault stAlerting
     0 true 10 1 5 (by norm_num)⟩

end RunpodAlerts
